import Mathlib

/-!
Shallow embedding of the scoring/report pipeline of the `ai-animal`
repository (`src/atc_scoring.py`, `src/gemini_analyzer.py`, trait data from
`src/config.py`), together with theorems settling the frozen claims about it.

Python floats are modelled as rationals (`ℚ`); Python `round(x, 2)` is
modelled as round-half-to-even at two decimal places (`round2` below), which
agrees with CPython on every concrete value appearing in the theorems and
witnesses of this file.
-/

/-- Round a rational to the nearest integer, ties to even
(the semantics of Python `round` on exactly representable values). -/
def roundHalfEven (q : ℚ) : ℤ :=
  if q - ⌊q⌋ < 1/2 then ⌊q⌋
  else if q - ⌊q⌋ > 1/2 then ⌊q⌋ + 1
  else if 2 ∣ ⌊q⌋ then ⌊q⌋ else ⌊q⌋ + 1

/-- Python `round(q, 2)`. -/
def round2 (q : ℚ) : ℚ := (roundHalfEven (q * 100) : ℚ) / 100

/-- Arithmetic mean of a list of rationals (`sum(l) / len(l)` in Python). -/
def mean (l : List ℚ) : ℚ := l.sum / (l.length : ℚ)

/-- Embeds `ATCScorer.calculate_overall_grade` (src/atc_scoring.py, lines 124-146):
the threshold ladder mapping a final composite score to a grade label. -/
def calculate_overall_grade (composite_score : ℚ) : String :=
  if composite_score ≥ 8 then "Excellent"
  else if composite_score ≥ 7 then "Very Good"
  else if composite_score ≥ 6 then "Good Plus"
  else if composite_score ≥ 5 then "Good"
  else if composite_score ≥ 4 then "Average"
  else if composite_score ≥ 3 then "Fair"
  else "Poor"

/-- Numeric rank of the grade labels, used to state monotonicity of the
grade ladder (higher grade, higher rank). -/
def gradeRank (grade : String) : ℕ :=
  if grade = "Excellent" then 6
  else if grade = "Very Good" then 5
  else if grade = "Good Plus" then 4
  else if grade = "Good" then 3
  else if grade = "Average" then 2
  else if grade = "Fair" then 1
  else 0

/-!
## Typed model of the oracle payload

The raw payload handed to `_calculate_composite_scores` and `format_report`
is a JSON-derived Python dict.  A per-trait entry in `structural_scores` /
`udder_scores` is either a dict `{"score": <number or null>, "notes": str}`
(a dict missing the `"score"` key behaves identically to one holding null,
since the code only reads it through `data.get("score")`) or some non-dict
value (modelled as a bare number). Top-level fields that may be missing are
`Option`; a missing score map behaves exactly like an empty one (the code
reads both through `.get(key, {})`), so the maps are plain lists.
-/

/-- One value of a `structural_scores` / `udder_scores` map. -/
inductive RawEntry where
  | dict (score : Option ℚ) (notes : String)
  | raw (value : ℚ)
deriving DecidableEq

/-- The score a raw entry carries: `data.get("score")` for a dict entry and
the value itself for a non-dict entry (which is what `_format_scores` puts
in the `score` field of a formatted score). -/
def RawEntry.scoreOf : RawEntry → Option ℚ
  | .dict s _ => s
  | .raw v => some v

/-- The dict returned by `_calculate_composite_scores`
(src/gemini_analyzer.py, lines 209-213). -/
structure CompositeScores where
  structural_composite : ℚ
  udder_composite : Option ℚ
  final_composite : ℚ
deriving DecidableEq

/-- The analysis-result dict: the §6 oracle payload shape, plus the
`composite_scores` key that `_validate_result` attaches before
`format_report` consumes the dict. -/
structure AnalysisResult where
  animal_type : Option String
  breed_guess : Option String
  sex : Option String
  image_quality : Option String
  image_angle : Option String
  body_parts_visible : List (String × Bool)
  structural_scores : List (String × RawEntry)
  udder_scores : List (String × RawEntry)
  overall_assessment : Option String
  recommendations : Option (List String)
  composite_scores : Option CompositeScores
deriving DecidableEq

/-- The scores collected from one category map: values of entries that are
dicts whose `"score"` is present and non-null
(`isinstance(data, dict) and data.get("score") is not None`). -/
def presentScores (entries : List (String × RawEntry)) : List ℚ :=
  entries.filterMap fun e =>
    match e.2 with
    | .dict (some s) _ => some s
    | _ => none

/-- Embeds `GeminiAnalyzer._calculate_composite_scores`
(src/gemini_analyzer.py, lines 175-213).  `0.6` and `0.4` are the exact
rationals `3/5` and `2/5`; `round(udder_avg, 2) if udder_avg else None`
tests Python truthiness, i.e. yields `None` when `udder_avg` is `None`
*or zero*. -/
def calculate_composite_scores (result : AnalysisResult) : CompositeScores :=
  let structural_scores := presentScores result.structural_scores
  let udder_scores := presentScores result.udder_scores
  let structural_avg : ℚ :=
    if structural_scores = [] then 5 else mean structural_scores
  let udder_avg : Option ℚ :=
    if udder_scores = [] then none else some (mean udder_scores)
  let final : ℚ :=
    match udder_avg with
    | some u => structural_avg * (3/5) + u * (2/5)
    | none => structural_avg
  { structural_composite := round2 structural_avg
    udder_composite :=
      match udder_avg with
      | some u => if u ≠ 0 then some (round2 u) else none
      | none => none
    final_composite := round2 final }

/-- Concrete payload refuting C1 as stated: seven structural scores
`[1,1,1,1,1,1,2]` (mean `8/7`) and one udder score `5`. -/
def blendCexPayload : AnalysisResult :=
  { animal_type := none, breed_guess := none, sex := none, image_quality := none
    image_angle := none, body_parts_visible := []
    structural_scores :=
      [("stature", .dict (some 1) ""), ("chest_width", .dict (some 1) "")
       , ("body_depth", .dict (some 1) ""), ("rump_angle", .dict (some 1) "")
       , ("rump_width", .dict (some 1) ""), ("rear_legs", .dict (some 1) "")
       , ("foot_angle", .dict (some 2) "")]
    udder_scores := [("fore_udder", .dict (some 5) "")]
    overall_assessment := none, recommendations := none, composite_scores := none }

/-- Witness payload for the amended C1: one structural score 7, one udder
score 5. -/
def blendWitnessPayload : AnalysisResult :=
  { animal_type := none, breed_guess := none, sex := none, image_quality := none
    image_angle := none, body_parts_visible := []
    structural_scores := [("stature", .dict (some 7) "")]
    udder_scores := [("udder_depth", .dict (some 5) "")]
    overall_assessment := none, recommendations := none, composite_scores := none }

/-- Payload refuting C4 as stated: a single udder entry whose score is the
(out-of-range but present, non-null) number `0`. -/
def udderZeroPayload : AnalysisResult :=
  { animal_type := none, breed_guess := none, sex := none, image_quality := none
    image_angle := none, body_parts_visible := []
    structural_scores := []
    udder_scores := [("fore_udder", .dict (some 0) "")]
    overall_assessment := none, recommendations := none, composite_scores := none }

/-- Witness payload for C4: no present udder score (one udder trait is
null-scored), two structural scores. -/
def udderAbsentPayload : AnalysisResult :=
  { animal_type := none, breed_guess := none, sex := none, image_quality := none
    image_angle := none, body_parts_visible := []
    structural_scores := [("stature", .dict (some 7) ""), ("chest_width", .dict (some 5) "")]
    udder_scores := [("fore_udder", .dict none "not visible")]
    overall_assessment := none, recommendations := none, composite_scores := none }

/-- Embeds `Config.ATC_TRAITS['structural']` (src/config.py):
`(id, (name, description))` for each structural trait. -/
def ATC_TRAITS_structural : List (String × String × String) :=
  [("stature", "Stature", "Height at withers")
   , ("chest_width", "Chest Width", "Width between front legs")
   , ("body_depth", "Body Depth", "Depth of barrel/body")
   , ("rump_angle", "Rump Angle", "Slope from hooks to pins")
   , ("rump_width", "Rump Width", "Width between pin bones")
   , ("rear_legs", "Rear Legs", "Angle and set of rear legs")
   , ("foot_angle", "Foot Angle", "Angle of front feet")
   , ("body_condition", "Body Condition", "Overall body condition score")]

/-- Embeds `Config.ATC_TRAITS['udder']` (src/config.py). -/
def ATC_TRAITS_udder : List (String × String × String) :=
  [("fore_udder", "Fore Udder Attachment", "Strength of fore attachment")
   , ("rear_udder_height", "Rear Udder Height", "Height of rear attachment")
   , ("udder_depth", "Udder Depth", "Udder floor relative to hocks")
   , ("teat_placement", "Teat Placement", "Position of teats")
   , ("teat_length", "Teat Length", "Length of teats")]

/-- The `descriptions` dict inside `ATCScorer.get_score_description`
(src/atc_scoring.py, lines 44-110): per trait, the anchor texts at scores
1, 5 and 9. -/
def descriptions : List (String × List (ℚ × String)) :=
  [("stature",
     [(1, "Very short/small"), (5, "Average height"), (9, "Very tall/large")])
   , ("chest_width",
     [(1, "Very narrow chest"), (5, "Average chest width"), (9, "Very wide chest")])
   , ("body_depth",
     [(1, "Very shallow body"), (5, "Average body depth"), (9, "Very deep body")])
   , ("rump_angle",
     [(1, "Pins very high (level)"), (5, "Moderate slope"), (9, "Pins very low (steep)")])
   , ("rump_width",
     [(1, "Very narrow rump"), (5, "Average rump width"), (9, "Very wide rump")])
   , ("rear_legs",
     [(1, "Very straight (post-legged)"), (5, "Intermediate set"), (9, "Very sickled")])
   , ("foot_angle",
     [(1, "Very low angle (flat)"), (5, "Intermediate angle"), (9, "Very steep angle")])
   , ("body_condition",
     [(1, "Very thin/emaciated"), (5, "Average condition"), (9, "Very fat/over-conditioned")])
   , ("fore_udder",
     [(1, "Weak/loose attachment"), (5, "Moderate attachment"), (9, "Very strong attachment")])
   , ("rear_udder_height",
     [(1, "Very low attachment"), (5, "Intermediate height"), (9, "Very high attachment")])
   , ("udder_depth",
     [(1, "Well below hocks"), (5, "At hock level"), (9, "Well above hocks")])
   , ("teat_placement",
     [(1, "Very wide (outside)"), (5, "Central placement"), (9, "Very close (inside)")])
   , ("teat_length",
     [(1, "Very short teats"), (5, "Medium length"), (9, "Very long teats")])]

/-- Anchor text of a trait description at a given score
(`trait_desc[k]`; every row of `descriptions` defines exactly the keys
1, 5, 9, so in the source the lookup never misses). -/
def anchorText (trait_desc : List (ℚ × String)) (k : ℚ) : String :=
  (trait_desc.lookup k).getD ""

/-- Embeds `ATCScorer.get_score_description` (src/atc_scoring.py, lines 34-122). -/
def get_score_description (trait_id : String) (score : ℚ) : String :=
  match descriptions.lookup trait_id with
  | none => "Score: " ++ toString score
  | some trait_desc =>
    match trait_desc.lookup score with
    | some text => text
    | none =>
      if score < 5 then
        "Below average (" ++ anchorText trait_desc 1 ++ " to " ++
          anchorText trait_desc 5 ++ ")"
      else
        "Above average (" ++ anchorText trait_desc 5 ++ " to " ++
          anchorText trait_desc 9 ++ ")"

/-- One element of the formatted score lists built by
`ATCScorer._format_scores` (src/atc_scoring.py, lines 215-222). -/
structure FormattedScore where
  trait_id : String
  trait_name : String
  description : String
  score : Option ℚ
  score_description : String
  notes : String
deriving DecidableEq

/-- Embeds `ATCScorer._format_scores` (src/atc_scoring.py, lines 190-224).
For a dict entry, `score = data.get("score")` and `notes` is the entry's
notes (a dict entry with no `"notes"` key behaves as `""`); for a non-dict
entry, `score = data` itself and `notes = ""`.  The interpretation text is
produced only when `score` is truthy (present *and* nonzero), else the
literal `"Not assessed"`. -/
def format_scores (scores : List (String × RawEntry))
    (trait_defs : List (String × String × String)) : List FormattedScore :=
  scores.map fun p =>
    let score : Option ℚ := p.2.scoreOf
    let notes : String := match p.2 with | .dict _ n => n | .raw _ => ""
    let td := trait_defs.lookup p.1
    { trait_id := p.1
      trait_name := match td with | some (n, _) => n | none => p.1
      description := match td with | some (_, d) => d | none => ""
      score := score
      score_description :=
        match score with
        | some q => if q ≠ 0 then get_score_description p.1 q else "Not assessed"
        | none => "Not assessed"
      notes := notes }

/-- The report dict built by `ATCScorer.format_report`
(src/atc_scoring.py, lines 157-186), with the nested `animal_info`,
`image_assessment` and `scores` sub-dicts flattened into fields.
`report_id` / `generated_at` come from the wall clock in the source and are
parameters of the builder here. -/
structure Report where
  report_id : String
  generated_at : String
  animal_type : String
  breed : String
  sex : String
  quality : String
  angle : String
  body_parts_visible : List (String × Bool)
  structural : List FormattedScore
  udder : List FormattedScore
  composites : Option CompositeScores
  overall_grade : String
  assessment : String
  recommendations : List String
deriving DecidableEq

/-- Embeds `ATCScorer.format_report` (src/atc_scoring.py, lines 148-188).
Each `.get(key, default)` on the analysis dict becomes `Option.getD`;
the grade is computed from
`analysis_result.get("composite_scores", {}).get("final_composite", 5)`. -/
def format_report (report_id generated_at : String)
    (analysis_result : AnalysisResult) : Report :=
  { report_id := report_id
    generated_at := generated_at
    animal_type := analysis_result.animal_type.getD "unknown"
    breed := analysis_result.breed_guess.getD "unknown"
    sex := analysis_result.sex.getD "unknown"
    quality := analysis_result.image_quality.getD "fair"
    angle := analysis_result.image_angle.getD "unknown"
    body_parts_visible := analysis_result.body_parts_visible
    structural := format_scores analysis_result.structural_scores ATC_TRAITS_structural
    udder := format_scores analysis_result.udder_scores ATC_TRAITS_udder
    composites := analysis_result.composite_scores
    overall_grade := calculate_overall_grade
      (match analysis_result.composite_scores with
       | some c => c.final_composite
       | none => 5)
    assessment := analysis_result.overall_assessment.getD ""
    recommendations := analysis_result.recommendations.getD [] }

/-- The flat record built by `ATCScorer.export_for_bpa`
(src/atc_scoring.py, lines 244-258). -/
structure BPAData where
  report_id : String
  timestamp : String
  animal_type : String
  breed : String
  sex : String
  structural_scores : List (String × Option ℚ)
  udder_scores : List (String × Option ℚ)
  structural_composite : Option ℚ
  udder_composite : Option ℚ
  final_composite : Option ℚ
  overall_grade : String
  assessment : String
  recommendations : List String
deriving DecidableEq

/-- Embeds `ATCScorer.export_for_bpa` (src/atc_scoring.py, lines 226-258):
re-flattens the formatted score lists into `trait_id → score` mappings and
projects the top-level report fields (`report.get("composites", {}).get(k)`
yields `None` when the composites dict is absent, and the stored
`udder_composite` may itself be `None`). -/
def export_for_bpa (report : Report) : BPAData :=
  { report_id := report.report_id
    timestamp := report.generated_at
    animal_type := report.animal_type
    breed := report.breed
    sex := report.sex
    structural_scores := report.structural.map fun s => (s.trait_id, s.score)
    udder_scores := report.udder.map fun s => (s.trait_id, s.score)
    structural_composite := report.composites.map fun c => c.structural_composite
    udder_composite := report.composites.bind fun c => c.udder_composite
    final_composite := report.composites.map fun c => c.final_composite
    overall_grade := report.overall_grade
    assessment := report.assessment
    recommendations := report.recommendations }

/-- The wholly-empty analysis dict: every optional field missing. -/
def barePayload : AnalysisResult :=
  { animal_type := none, breed_guess := none, sex := none, image_quality := none
    image_angle := none, body_parts_visible := []
    structural_scores := [], udder_scores := []
    overall_assessment := none, recommendations := none, composite_scores := none }

/-!
## JSON-level model of the parsing boundary

`_parse_response` / `_validate_result` (src/gemini_analyzer.py, lines
106-173) operate on the raw decoded JSON value before it has any shape.
`json.loads` is Python-stdlib territory, so the decode outcome (a JSON value
or a `JSONDecodeError` message) is a parameter of the embedded boundary;
everything after the decode is embedded faithfully.  Python exceptions that
the source does *not* catch (`TypeError`/`AttributeError` on unexpected
shapes) are modelled by the `Except.error` branch.
-/

/-- A decoded JSON value. -/
inductive Json where
  | null
  | bool (b : Bool)
  | num (q : ℚ)
  | str (s : String)
  | arr (elems : List Json)
  | obj (fields : List (String × Json))

/-- The `defaults` dict of `_validate_result`
(src/gemini_analyzer.py, lines 151-164), in insertion order. -/
def jsonDefaults : List (String × Json) :=
  [("animal_detected", .bool false)
   , ("animal_type", .str "unknown")
   , ("breed_guess", .str "unknown")
   , ("sex", .str "unknown")
   , ("image_quality", .str "fair")
   , ("image_angle", .str "unknown")
   , ("body_parts_visible", .obj [])
   , ("structural_scores", .obj [])
   , ("udder_scores", .obj [])
   , ("overall_score", .num 5)
   , ("overall_assessment", .str "")
   , ("recommendations", .arr [])]

/-- One iteration of the defaults loop:
`if key not in result: result[key] = default` (appends in insertion order). -/
def setDefault (fields : List (String × Json)) (kv : String × Json) :
    List (String × Json) :=
  if (fields.lookup kv.1).isSome then fields else fields ++ [kv]

/-- The whole defaults loop of `_validate_result`. -/
def fillDefaults (fields : List (String × Json)) : List (String × Json) :=
  jsonDefaults.foldl setDefault fields

/-- Python dict assignment `result[key] = v`: replace in place when the key
exists, else append. -/
def setKey (fields : List (String × Json)) (k : String) (v : Json) :
    List (String × Json) :=
  if (fields.lookup k).isSome then
    fields.map fun p => if p.1 = k then (k, v) else p
  else fields ++ [(k, v)]

/-- The score-collection loop of `_calculate_composite_scores` over one
category: keeps `data["score"]` for every entry where
`isinstance(data, dict) and data.get("score") is not None`. -/
def entryScores (entries : List (String × Json)) : List Json :=
  entries.filterMap fun p =>
    match p.2 with
    | .obj d =>
      match d.lookup "score" with
      | none => none
      | some .null => none
      | some v => some v
    | _ => none

/-- Models `scores.items()` on a category value: raises `AttributeError` when the
value is not a dict. -/
def collectScoreValues (scoresJson : Json) : Except String (List Json) :=
  match scoresJson with
  | .obj entries => .ok (entryScores entries)
  | _ => .error "AttributeError"

/-- Numeric semantics of one collected score value under Python `sum`:
numbers are themselves, `True`/`False` count as 1/0, anything else makes
`sum` raise `TypeError`. -/
def numValue : Json → Except String ℚ
  | .num q => .ok q
  | .bool b => .ok (if b then 1 else 0)
  | _ => .error "TypeError"

/-- Python `sum` over the collected score values (left to right, raising on
the first non-numeric element). -/
def sumValues : List Json → Except String ℚ
  | [] => .ok 0
  | v :: rest =>
    match numValue v with
    | .error e => .error e
    | .ok q =>
      match sumValues rest with
      | .error e => .error e
      | .ok s => .ok (q + s)

/-- Embeds `GeminiAnalyzer._calculate_composite_scores` at the JSON level
(src/gemini_analyzer.py, lines 175-213), including the uncaught exceptions
it can raise on unexpected shapes.  Category values are read through
`result.get(key, {})`. -/
def calculate_composite_scores_json (result : List (String × Json)) :
    Except String Json :=
  match collectScoreValues ((result.lookup "structural_scores").getD (.obj [])) with
  | .error e => .error e
  | .ok structural_list =>
    match sumValues structural_list with
    | .error e => .error e
    | .ok structural_sum =>
      match collectScoreValues ((result.lookup "udder_scores").getD (.obj [])) with
      | .error e => .error e
      | .ok udder_list =>
        match sumValues udder_list with
        | .error e => .error e
        | .ok udder_sum =>
          let structural_avg : ℚ :=
            if structural_list.isEmpty then 5
            else structural_sum / structural_list.length
          let udder_avg : Option ℚ :=
            if udder_list.isEmpty then none
            else some (udder_sum / udder_list.length)
          let final : ℚ :=
            match udder_avg with
            | some u => structural_avg * (3/5) + u * (2/5)
            | none => structural_avg
          .ok (.obj
            [("structural_composite", .num (round2 structural_avg))
             , ("udder_composite",
                match udder_avg with
                | some u => if u ≠ 0 then .num (round2 u) else .null
                | none => .null)
             , ("final_composite", .num (round2 final))])

/-- Embeds `GeminiAnalyzer._validate_result` (src/gemini_analyzer.py, lines
141-173): fill the defaults, then attach the computed composite scores.
A non-dict result makes the uncaught defaults loop / attribute accesses
raise (`TypeError`). -/
def validate_result (result : Json) : Except String Json :=
  match result with
  | .obj fields =>
    match calculate_composite_scores_json (fillDefaults fields) with
    | .ok comps => .ok (.obj (setKey (fillDefaults fields) "composite_scores" comps))
    | .error e => .error e
  | _ => .error "TypeError"

/-- Outcome of `_parse_response`: the error dict returned on
`JSONDecodeError`, a structured result, or an uncaught Python exception. -/
inductive ParseOutcome where
  | errorDict (message : String) (raw_response : String)
  | structured (result : Json)
  | raised (err : String)

/-- Whether `_parse_response` returned a structured (non-error) result. -/
def ParseOutcome.isStructured : ParseOutcome → Bool
  | .structured _ => true
  | _ => false

/-- Embeds `GeminiAnalyzer._parse_response` (src/gemini_analyzer.py, lines
106-139).  `decoded` is the outcome of `json.loads` on the fence-stripped
text; the `except json.JSONDecodeError` arm returns the error dict carrying
the *original* `response_text`. -/
def parse_response (response_text : String) (decoded : Except String Json) :
    ParseOutcome :=
  match decoded with
  | .error e => .errorDict ("Failed to parse AI response: " ++ e) response_text
  | .ok j =>
    match validate_result j with
    | .ok r => .structured r
    | .error e => .raised e

/-- A category entry value the composite calculator can consume without
raising: non-dicts and dicts whose `"score"` is missing or null are skipped,
and a present score must be a plain number (the §6 payload shape). -/
def conformingEntry : Json → Bool
  | .obj d =>
    match d.lookup "score" with
    | none => true
    | some .null => true
    | some (.num _) => true
    | some _ => false
  | _ => true

/-- The named category map is absent or is a dict of conforming entries. -/
def conformingMap (fields : List (String × Json)) (key : String) : Bool :=
  match fields.lookup key with
  | none => true
  | some (.obj entries) => entries.all fun p => conformingEntry p.2
  | some _ => false

/-- The present (non-null, numeric) scores among a list of category
entries, in iteration order. -/
def entryNumScores (entries : List (String × Json)) : List ℚ :=
  entries.filterMap fun p =>
    match p.2 with
    | .obj d =>
      match d.lookup "score" with
      | some (.num q) => some q
      | _ => none
    | _ => none

/-- The present (non-null, numeric) scores of the named category map, in
iteration order. -/
def presentNumScores (fields : List (String × Json)) (key : String) : List ℚ :=
  match (fields.lookup key).getD (.obj []) with
  | .obj entries => entryNumScores entries
  | _ => []

/-- Witness payload for C3: a structural map holding one well-formed scored
entry, a bare number (non-dict), a second scored entry, a null-scored entry
and an entry without a `"score"` key; no udder map. -/
def malformedScoresPayload : List (String × Json) :=
  [("structural_scores", Json.obj
      [("stature", Json.obj [("score", Json.num 7), ("notes", Json.str "ok")])
       , ("chest_width", Json.num 3)
       , ("body_depth", Json.obj [("score", Json.num 6)])
       , ("rump_angle", Json.obj [("score", Json.null)])
       , ("rump_width", Json.obj [("notes", Json.str "blurry")])])]

lemma gradeRank_grade_eq (c : ℚ) :
    gradeRank (calculate_overall_grade c) =
      if c ≥ 8 then 6 else if c ≥ 7 then 5 else if c ≥ 6 then 4
      else if c ≥ 5 then 3 else if c ≥ 4 then 2 else if c ≥ 3 then 1 else 0 := by
  unfold calculate_overall_grade
  split_ifs <;> rfl

set_option maxHeartbeats 1000000 in
/-- C2: the overall grade is a total, deterministic, monotone function of the
final composite, computed by inclusive lower-bound thresholds evaluated
top-down: ≥8 "Excellent", ≥7 "Very Good", ≥6 "Good Plus", ≥5 "Good",
≥4 "Average", ≥3 "Fair", else "Poor"; the boundary values 8, 7, 6, 5, 4, 3
map exactly to those labels and every value below 3 maps to "Poor". -/
theorem grade_ladder_spec :
    (calculate_overall_grade 8 = "Excellent" ∧
     calculate_overall_grade 7 = "Very Good" ∧
     calculate_overall_grade 6 = "Good Plus" ∧
     calculate_overall_grade 5 = "Good" ∧
     calculate_overall_grade 4 = "Average" ∧
     calculate_overall_grade 3 = "Fair") ∧
    (∀ c : ℚ, c < 3 → calculate_overall_grade c = "Poor") ∧
    (∀ c : ℚ,
      (8 ≤ c → calculate_overall_grade c = "Excellent") ∧
      (7 ≤ c → c < 8 → calculate_overall_grade c = "Very Good") ∧
      (6 ≤ c → c < 7 → calculate_overall_grade c = "Good Plus") ∧
      (5 ≤ c → c < 6 → calculate_overall_grade c = "Good") ∧
      (4 ≤ c → c < 5 → calculate_overall_grade c = "Average") ∧
      (3 ≤ c → c < 4 → calculate_overall_grade c = "Fair")) ∧
    (∀ x y : ℚ, 1 ≤ x → x ≤ y → y ≤ 9 →
      gradeRank (calculate_overall_grade x) ≤ gradeRank (calculate_overall_grade y)) := by
  refine ⟨⟨by decide, by decide, by decide, by decide, by decide, by decide⟩, ?_, ?_, ?_⟩
  · intro c hc
    unfold calculate_overall_grade
    split_ifs <;> first | rfl | linarith
  · intro c
    refine ⟨?_, ?_, ?_, ?_, ?_, ?_⟩ <;>
      · intros
        unfold calculate_overall_grade
        split_ifs <;> first | rfl | linarith
  · intro x y _ hxy _
    rw [gradeRank_grade_eq, gradeRank_grade_eq]
    split_ifs <;> first | omega | linarith

/-- Witness for C2 at concrete inputs: the boundary case 7 maps to
"Very Good" per the ladder characterization, and the monotonicity conjunct
applied at 7/2 ≤ 7 within [1, 9]. -/
theorem grade_ladder_spec_witness :
    calculate_overall_grade 7 = "Very Good" ∧
    gradeRank (calculate_overall_grade (7/2)) ≤ gradeRank (calculate_overall_grade 7) :=
  ⟨(grade_ladder_spec.2.2.1 7).2.1 (by norm_num) (by norm_num),
   grade_ladder_spec.2.2.2 (7/2) 7 (by norm_num) (by norm_num) (by norm_num)⟩

/-- Counterexample to C1 as stated: on `blendCexPayload` the code's final
composite is `2.69` (it blends the *unrounded* means `8/7` and `5`), while
`round(0.6 × structural composite + 0.4 × udder composite, 2)` computed from
the rounded composites `1.14` and `5.00` is `2.68`. -/
theorem composite_blend_counterexample :
    (calculate_composite_scores blendCexPayload).structural_composite = 114/100 ∧
    (calculate_composite_scores blendCexPayload).udder_composite = some 5 ∧
    (calculate_composite_scores blendCexPayload).final_composite = 269/100 ∧
    round2 ((calculate_composite_scores blendCexPayload).structural_composite * (3/5) +
        ((calculate_composite_scores blendCexPayload).udder_composite.getD 0) * (2/5))
      = 268/100 ∧
    (269/100 : ℚ) ≠ 268/100 := by
  refine ⟨?_, ?_, ?_, ?_, by norm_num⟩ <;>
    · simp [calculate_composite_scores, blendCexPayload, presentScores, mean]
      norm_num [round2, roundHalfEven]

/-- C1 (amended): for every raw payload with at least one present structural
and at least one present udder score, the final composite equals
`round(0.6 × structural mean + 0.4 × udder mean, 2)` where the blend is taken
over the *unrounded* per-category arithmetic means (the rounding to two
decimal places happens once, after the blend). -/
theorem composite_final_blend_unrounded (r : AnalysisResult)
    (hs : presentScores r.structural_scores ≠ [])
    (hu : presentScores r.udder_scores ≠ []) :
    (calculate_composite_scores r).final_composite =
      round2 (mean (presentScores r.structural_scores) * (3/5) +
              mean (presentScores r.udder_scores) * (2/5)) := by
  unfold calculate_composite_scores
  simp only [if_neg hs, if_neg hu]

/-- Witness for the amended C1 at `blendWitnessPayload`:
final composite `round2(7·0.6 + 5·0.4) = 6.2`. -/
theorem composite_final_blend_unrounded_witness :
    (calculate_composite_scores blendWitnessPayload).final_composite =
      round2 (mean (presentScores blendWitnessPayload.structural_scores) * (3/5) +
              mean (presentScores blendWitnessPayload.udder_scores) * (2/5)) ∧
    (calculate_composite_scores blendWitnessPayload).final_composite = 62/10 :=
  ⟨composite_final_blend_unrounded blendWitnessPayload
      (by simp [presentScores, blendWitnessPayload])
      (by simp [presentScores, blendWitnessPayload]),
   by
    simp [calculate_composite_scores, blendWitnessPayload, presentScores, mean]
    norm_num [round2, roundHalfEven]⟩

/-- Counterexample to C4 as stated: on `udderZeroPayload` one udder trait
carries the present (non-null) score `0`, yet the code reports the udder
composite as absent (`round(udder_avg, 2) if udder_avg else None` tests
Python truthiness and `0.0` is falsy), not as the rounded mean `0.00`. -/
theorem udder_truthiness_counterexample :
    presentScores udderZeroPayload.udder_scores = [0] ∧
    (calculate_composite_scores udderZeroPayload).udder_composite = none ∧
    (calculate_composite_scores udderZeroPayload).udder_composite ≠
      some (round2 (mean (presentScores udderZeroPayload.udder_scores))) := by
  refine ⟨by simp [presentScores, udderZeroPayload], ?_, ?_⟩ <;>
    simp [calculate_composite_scores, udderZeroPayload, presentScores, mean]

/-- C4 (amended): when no udder trait carries a present (non-null) score the
udder composite is absent and the final composite equals the structural
composite exactly; when at least one udder score is present *and the mean of
the present udder scores is nonzero* (always the case for in-range scores),
the udder composite is that mean rounded to 2 decimal places; when the mean
is zero (possible only with out-of-range scores) the code's truthiness test
reports the udder composite as absent. -/
theorem udder_composite_spec (r : AnalysisResult) :
    (presentScores r.udder_scores = [] →
      (calculate_composite_scores r).udder_composite = none ∧
      (calculate_composite_scores r).final_composite =
        (calculate_composite_scores r).structural_composite) ∧
    (presentScores r.udder_scores ≠ [] →
      mean (presentScores r.udder_scores) ≠ 0 →
      (calculate_composite_scores r).udder_composite =
        some (round2 (mean (presentScores r.udder_scores)))) ∧
    (presentScores r.udder_scores ≠ [] →
      mean (presentScores r.udder_scores) = 0 →
      (calculate_composite_scores r).udder_composite = none) := by
  refine ⟨?_, ?_, ?_⟩
  · intro h
    unfold calculate_composite_scores
    simp [h]
  · intro h hnz
    unfold calculate_composite_scores
    simp [h, hnz]
  · intro h hz
    unfold calculate_composite_scores
    simp [h, hz]

/-- Witness for C4 at concrete payloads: on `udderAbsentPayload` the udder
composite is absent and the final composite equals the structural composite;
on `blendWitnessPayload` (one udder score 5) it is `round2(5) = 5`. -/
theorem udder_composite_spec_witness :
    ((calculate_composite_scores udderAbsentPayload).udder_composite = none ∧
     (calculate_composite_scores udderAbsentPayload).final_composite =
       (calculate_composite_scores udderAbsentPayload).structural_composite) ∧
    (calculate_composite_scores blendWitnessPayload).udder_composite =
      some (round2 (mean (presentScores blendWitnessPayload.udder_scores))) :=
  ⟨(udder_composite_spec udderAbsentPayload).1
      (by simp [presentScores, udderAbsentPayload]),
   (udder_composite_spec blendWitnessPayload).2.1
      (by simp [presentScores, blendWitnessPayload])
      (by simp [presentScores, blendWitnessPayload, mean])⟩

lemma le_list_sum (l : List ℚ) (a : ℚ) (h : ∀ x ∈ l, a ≤ x) :
    a * l.length ≤ l.sum := by
  induction l with
  | nil => simp
  | cons x xs ih =>
    have hx := h x (by simp)
    have hxs := ih fun y hy => h y (by simp [hy])
    simp only [List.sum_cons, List.length_cons]
    push_cast
    linarith

lemma list_sum_le (l : List ℚ) (b : ℚ) (h : ∀ x ∈ l, x ≤ b) :
    l.sum ≤ b * l.length := by
  induction l with
  | nil => simp
  | cons x xs ih =>
    have hx := h x (by simp)
    have hxs := ih fun y hy => h y (by simp [hy])
    simp only [List.sum_cons, List.length_cons]
    push_cast
    linarith

lemma mean_bounds (l : List ℚ) (hne : l ≠ [])
    (h : ∀ q ∈ l, 1 ≤ q ∧ q ≤ 9) : 1 ≤ mean l ∧ mean l ≤ 9 := by
  have hlen : (0 : ℚ) < l.length := by
    have : l.length ≠ 0 := fun h0 => hne (List.length_eq_zero.mp h0)
    positivity
  have hlo := le_list_sum l 1 fun x hx => (h x hx).1
  have hhi := list_sum_le l 9 fun x hx => (h x hx).2
  constructor
  · rw [mean, le_div_iff₀ hlen]
    linarith
  · rw [mean, div_le_iff₀ hlen]
    linarith

lemma roundHalfEven_ge (n : ℤ) (q : ℚ) (h : (n : ℚ) ≤ q) :
    n ≤ roundHalfEven q := by
  have hfl : n ≤ ⌊q⌋ := Int.le_floor.mpr h
  unfold roundHalfEven
  split_ifs <;> omega

lemma roundHalfEven_le (n : ℤ) (q : ℚ) (h : q ≤ (n : ℚ)) :
    roundHalfEven q ≤ n := by
  have hfl : ⌊q⌋ ≤ n := by
    have := Int.floor_le_floor h
    simpa using this
  have hflq : (⌊q⌋ : ℚ) ≤ q := Int.floor_le q
  unfold roundHalfEven
  split_ifs with h1 h2 h3
  · exact hfl
  · have : (⌊q⌋ : ℚ) < (n : ℚ) := by linarith
    have : ⌊q⌋ < n := by exact_mod_cast this
    omega
  · exact hfl
  · have h12 : q - ⌊q⌋ = 1/2 := le_antisymm (not_lt.mp h2) (not_lt.mp h1)
    have : (⌊q⌋ : ℚ) < (n : ℚ) := by linarith
    have : ⌊q⌋ < n := by exact_mod_cast this
    omega

lemma round2_one_nine (q : ℚ) (h1 : 1 ≤ q) (h9 : q ≤ 9) :
    1 ≤ round2 q ∧ round2 q ≤ 9 := by
  have lo : (100 : ℤ) ≤ roundHalfEven (q * 100) := by
    apply roundHalfEven_ge
    push_cast
    linarith
  have hi : roundHalfEven (q * 100) ≤ 900 := by
    apply roundHalfEven_le
    push_cast
    linarith
  have lo' : (100 : ℚ) ≤ (roundHalfEven (q * 100) : ℚ) := by exact_mod_cast lo
  have hi' : ((roundHalfEven (q * 100) : ℚ)) ≤ 900 := by exact_mod_cast hi
  unfold round2
  constructor
  · rw [le_div_iff₀ (by norm_num : (0:ℚ) < 100)]
    linarith
  · rw [div_le_iff₀ (by norm_num : (0:ℚ) < 100)]
    linarith

/-- C10: for every raw payload whose present structural and udder scores are
integers in [1,9], the computed structural and final composites lie in
[1,9], and so does the udder composite whenever it is defined. -/
theorem composites_in_range (r : AnalysisResult)
    (hs : ∀ q ∈ presentScores r.structural_scores, (∃ n : ℤ, q = n) ∧ 1 ≤ q ∧ q ≤ 9)
    (hu : ∀ q ∈ presentScores r.udder_scores, (∃ n : ℤ, q = n) ∧ 1 ≤ q ∧ q ≤ 9) :
    (1 ≤ (calculate_composite_scores r).structural_composite ∧
      (calculate_composite_scores r).structural_composite ≤ 9) ∧
    (1 ≤ (calculate_composite_scores r).final_composite ∧
      (calculate_composite_scores r).final_composite ≤ 9) ∧
    (∀ u, (calculate_composite_scores r).udder_composite = some u →
      1 ≤ u ∧ u ≤ 9) := by
  have hsa : 1 ≤ (if presentScores r.structural_scores = [] then (5:ℚ)
      else mean (presentScores r.structural_scores)) ∧
      (if presentScores r.structural_scores = [] then (5:ℚ)
      else mean (presentScores r.structural_scores)) ≤ 9 := by
    by_cases hse : presentScores r.structural_scores = []
    · simp [hse]
      norm_num
    · simpa [hse] using mean_bounds _ hse fun q hq => (hs q hq).2
  by_cases hue : presentScores r.udder_scores = []
  · unfold calculate_composite_scores
    simp only [hue, if_pos rfl, reduceIte]
    refine ⟨round2_one_nine _ hsa.1 hsa.2, round2_one_nine _ hsa.1 hsa.2, by simp⟩
  · have hua : 1 ≤ mean (presentScores r.udder_scores) ∧
        mean (presentScores r.udder_scores) ≤ 9 :=
      mean_bounds _ hue fun q hq => (hu q hq).2
    have hnz : mean (presentScores r.udder_scores) ≠ 0 := by linarith [hua.1]
    have hblend : 1 ≤ (if presentScores r.structural_scores = [] then (5:ℚ)
          else mean (presentScores r.structural_scores)) * (3/5) +
          mean (presentScores r.udder_scores) * (2/5) ∧
        (if presentScores r.structural_scores = [] then (5:ℚ)
          else mean (presentScores r.structural_scores)) * (3/5) +
          mean (presentScores r.udder_scores) * (2/5) ≤ 9 := by
      constructor <;> linarith [hsa.1, hsa.2, hua.1, hua.2]
    unfold calculate_composite_scores
    simp only [hue, reduceIte, if_neg, hnz, ne_eq, not_false_eq_true, if_true]
    refine ⟨round2_one_nine _ hsa.1 hsa.2, round2_one_nine _ hblend.1 hblend.2, ?_⟩
    intro u hu'
    simp only [Option.some.injEq] at hu'
    subst hu'
    exact round2_one_nine _ hua.1 hua.2

/-- Witness for C10 at `blendWitnessPayload` (structural score 7, udder
score 5): all three composites lie in [1,9]. -/
theorem composites_in_range_witness :
    (1 ≤ (calculate_composite_scores blendWitnessPayload).structural_composite ∧
      (calculate_composite_scores blendWitnessPayload).structural_composite ≤ 9) ∧
    (1 ≤ (calculate_composite_scores blendWitnessPayload).final_composite ∧
      (calculate_composite_scores blendWitnessPayload).final_composite ≤ 9) ∧
    (∀ u, (calculate_composite_scores blendWitnessPayload).udder_composite = some u →
      1 ≤ u ∧ u ≤ 9) :=
  composites_in_range blendWitnessPayload
    (by
      intro q hq
      simp [presentScores, blendWitnessPayload] at hq
      subst hq
      exact ⟨⟨7, by norm_num⟩, by norm_num, by norm_num⟩)
    (by
      intro q hq
      simp [presentScores, blendWitnessPayload] at hq
      subst hq
      exact ⟨⟨5, by norm_num⟩, by norm_num, by norm_num⟩)

lemma format_scores_project (l : List (String × RawEntry))
    (tds : List (String × String × String)) :
    (format_scores l tds).map (fun s => (s.trait_id, s.score)) =
      l.map fun p => (p.1, p.2.scoreOf) := by
  rw [format_scores, List.map_map]
  rfl

/-- C5: exporting the report built from a payload reproduces exactly the
trait → score pairs of the payload's structural and udder score maps (same
keys in the same order, same score values — including null scores — with
display text and notes discarded). -/
theorem export_roundtrip_scores (rid ts : String) (r : AnalysisResult) :
    (export_for_bpa (format_report rid ts r)).structural_scores =
      (r.structural_scores.map fun p => (p.1, p.2.scoreOf)) ∧
    (export_for_bpa (format_report rid ts r)).udder_scores =
      (r.udder_scores.map fun p => (p.1, p.2.scoreOf)) :=
  ⟨format_scores_project r.structural_scores ATC_TRAITS_structural,
   format_scores_project r.udder_scores ATC_TRAITS_udder⟩

/-- C6: building the report from a payload to which the composite calculator's
output has been attached (exactly what `_validate_result` does before
`format_report` runs) embeds that Composite Score Set unchanged, and the
overall grade is the grade ladder applied to its final composite (the
calculator itself never reads the attached `composite_scores`, so attaching
it does not perturb the computation). -/
theorem report_embeds_composites (rid ts : String) (r : AnalysisResult) :
    calculate_composite_scores
        { r with composite_scores := some (calculate_composite_scores r) } =
      calculate_composite_scores r ∧
    (format_report rid ts
        { r with composite_scores := some (calculate_composite_scores r) }).composites =
      some (calculate_composite_scores r) ∧
    (format_report rid ts
        { r with composite_scores := some (calculate_composite_scores r) }).overall_grade =
      calculate_overall_grade (calculate_composite_scores r).final_composite :=
  ⟨rfl, rfl, rfl⟩

/-- Counterexample to C7 as stated: on a payload with no `image_quality`
field the built report's image quality is the literal `"fair"` — the code's
default for this one field — not `"unknown"`. -/
theorem metadata_defaults_counterexample :
    barePayload.image_quality = none ∧
    (format_report "20240101000000" "t" barePayload).quality = "fair" ∧
    (format_report "20240101000000" "t" barePayload).quality ≠ "unknown" :=
  ⟨rfl, rfl, by decide⟩

/-- C7 (amended): the report builder copies animal type, breed, sex and
image angle verbatim, defaulting each missing one to `"unknown"`, and copies
image quality verbatim, defaulting it to `"fair"` (not `"unknown"`). -/
theorem metadata_defaults (rid ts : String) (r : AnalysisResult) :
    (format_report rid ts r).animal_type = r.animal_type.getD "unknown" ∧
    (format_report rid ts r).breed = r.breed_guess.getD "unknown" ∧
    (format_report rid ts r).sex = r.sex.getD "unknown" ∧
    (format_report rid ts r).angle = r.image_angle.getD "unknown" ∧
    (format_report rid ts r).quality = r.image_quality.getD "fair" :=
  ⟨rfl, rfl, rfl, rfl, rfl⟩

/-- C8: `get_score_description` is total on every trait identifier and
integer score in [1,9]: unknown traits get the generic `"Score: {score}"`;
for a known trait the three anchor scores return the anchor text verbatim,
scores below 5 (and not an anchor) return the composed "Below average"
string over the 1- and 5-anchors, and scores ≥ 5 (and not an anchor) return
the composed "Above average" string over the 5- and 9-anchors. -/
theorem score_description_spec (trait : String) (n : ℤ)
    (h1 : 1 ≤ n) (h9 : n ≤ 9) :
    (descriptions.lookup trait = none →
      get_score_description trait (n : ℚ) = "Score: " ++ toString ((n : ℚ))) ∧
    (∀ a1 a5 a9, descriptions.lookup trait = some [(1, a1), (5, a5), (9, a9)] →
      (n = 1 → get_score_description trait (n : ℚ) = a1) ∧
      (n = 5 → get_score_description trait (n : ℚ) = a5) ∧
      (n = 9 → get_score_description trait (n : ℚ) = a9) ∧
      (n < 5 → n ≠ 1 →
        get_score_description trait (n : ℚ) =
          "Below average (" ++ a1 ++ " to " ++ a5 ++ ")") ∧
      (5 ≤ n → n ≠ 5 → n ≠ 9 →
        get_score_description trait (n : ℚ) =
          "Above average (" ++ a5 ++ " to " ++ a9 ++ ")")) := by
  constructor
  · intro h
    unfold get_score_description
    rw [h]
  · intro a1 a5 a9 hlk
    refine ⟨?_, ?_, ?_, ?_, ?_⟩
    · intro hn
      subst hn
      unfold get_score_description
      rw [hlk]
      norm_num [List.lookup]
    · intro hn
      subst hn
      unfold get_score_description
      rw [hlk]
      have e1 : ((5:ℚ) == (1:ℚ)) = false := by
        simp only [beq_eq_false_iff_ne]
        norm_num
      simp [List.lookup, e1]
    · intro hn
      subst hn
      unfold get_score_description
      rw [hlk]
      have e1 : ((9:ℚ) == (1:ℚ)) = false := by
        simp only [beq_eq_false_iff_ne]
        norm_num
      have e2 : ((9:ℚ) == (5:ℚ)) = false := by
        simp only [beq_eq_false_iff_ne]
        norm_num
      simp [List.lookup, e1, e2]
    · intro hlt hn1
      have b1 : (((n:ℚ)) == (1:ℚ)) = false := by
        simp only [beq_eq_false_iff_ne]
        exact_mod_cast hn1
      have b5 : (((n:ℚ)) == (5:ℚ)) = false := by
        simp only [beq_eq_false_iff_ne]
        have : n ≠ 5 := by omega
        exact_mod_cast this
      have b9 : (((n:ℚ)) == (9:ℚ)) = false := by
        simp only [beq_eq_false_iff_ne]
        have : n ≠ 9 := by omega
        exact_mod_cast this
      have e1 : ((5:ℚ) == (1:ℚ)) = false := by
        simp only [beq_eq_false_iff_ne]
        norm_num
      have qlt : (n : ℚ) < 5 := by exact_mod_cast hlt
      unfold get_score_description
      rw [hlk]
      simp [List.lookup, b1, b5, b9, e1, qlt, anchorText]
    · intro hge hn5 hn9
      have b1 : (((n:ℚ)) == (1:ℚ)) = false := by
        simp only [beq_eq_false_iff_ne]
        have : n ≠ 1 := by omega
        exact_mod_cast this
      have b5 : (((n:ℚ)) == (5:ℚ)) = false := by
        simp only [beq_eq_false_iff_ne]
        exact_mod_cast hn5
      have b9 : (((n:ℚ)) == (9:ℚ)) = false := by
        simp only [beq_eq_false_iff_ne]
        exact_mod_cast hn9
      have e1 : ((5:ℚ) == (1:ℚ)) = false := by
        simp only [beq_eq_false_iff_ne]
        norm_num
      have f1 : ((9:ℚ) == (1:ℚ)) = false := by
        simp only [beq_eq_false_iff_ne]
        norm_num
      have f2 : ((9:ℚ) == (5:ℚ)) = false := by
        simp only [beq_eq_false_iff_ne]
        norm_num
      have qge : ¬((n : ℚ) < 5) := by
        have h5 : (5:ℚ) ≤ (n:ℚ) := by exact_mod_cast hge
        linarith
      unfold get_score_description
      rw [hlk]
      simp [List.lookup, b1, b5, b9, e1, f1, f2, qge, anchorText]

/-- Witness for C8: the known trait `"stature"` at score 3 yields the
composed below-average text; the unknown trait `"mystery_trait"` at score 7
yields the generic text. -/
theorem score_description_spec_witness :
    get_score_description "stature" ((3 : ℤ) : ℚ) =
      "Below average (Very short/small to Average height)" ∧
    get_score_description "mystery_trait" ((7 : ℤ) : ℚ) =
      "Score: " ++ toString (((7 : ℤ) : ℚ)) :=
  ⟨((score_description_spec "stature" 3 (by norm_num) (by norm_num)).2
      "Very short/small" "Average height" "Very tall/large" rfl).2.2.2.1
      (by norm_num) (by norm_num),
   (score_description_spec "mystery_trait" 7 (by norm_num) (by norm_num)).1 rfl⟩

lemma round2_five : round2 5 = 5 := by
  norm_num [round2, roundHalfEven]

lemma lookup_append (l₁ l₂ : List (String × Json)) (k : String) :
    (l₁ ++ l₂).lookup k = ((l₁.lookup k).orElse fun _ => l₂.lookup k) := by
  induction l₁ with
  | nil => simp [List.lookup]
  | cons p t ih =>
    obtain ⟨k₀, v₀⟩ := p
    cases h : (k == k₀) <;> simp [List.lookup, h, ih]

lemma lookup_setDefault (fields : List (String × Json)) (kv : String × Json)
    (k : String) :
    (setDefault fields kv).lookup k =
      match fields.lookup k with
      | some v => some v
      | none => if k == kv.1 then some kv.2 else none := by
  obtain ⟨k₀, v₀⟩ := kv
  unfold setDefault
  by_cases h : (fields.lookup k₀).isSome
  · rw [if_pos h]
    cases hk : fields.lookup k with
    | some v => rfl
    | none =>
      cases hbe : (k == k₀) with
      | false => simp [hbe]
      | true =>
        exfalso
        have hke : k = k₀ := eq_of_beq hbe
        rw [hke] at hk
        rw [hk] at h
        simp at h
  · rw [if_neg h, lookup_append]
    cases hk : fields.lookup k with
    | some v => rfl
    | none =>
      simp only [Option.orElse]
      cases hbe : (k == k₀) <;> simp [List.lookup, hbe]

lemma lookup_fillDefaults_structural (fields : List (String × Json)) :
    (fillDefaults fields).lookup "structural_scores" =
      match fields.lookup "structural_scores" with
      | some v => some v
      | none => some (.obj []) := by
  simp only [fillDefaults, jsonDefaults, List.foldl, lookup_setDefault]
  cases hk : fields.lookup "structural_scores" <;> rfl

lemma lookup_fillDefaults_udder (fields : List (String × Json)) :
    (fillDefaults fields).lookup "udder_scores" =
      match fields.lookup "udder_scores" with
      | some v => some v
      | none => some (.obj []) := by
  simp only [fillDefaults, jsonDefaults, List.foldl, lookup_setDefault]
  cases hk : fields.lookup "udder_scores" <;> rfl

lemma conformingMap_fillDefaults_structural (fields : List (String × Json))
    (h : conformingMap fields "structural_scores" = true) :
    conformingMap (fillDefaults fields) "structural_scores" = true := by
  unfold conformingMap at h ⊢
  rw [lookup_fillDefaults_structural]
  cases hk : fields.lookup "structural_scores" with
  | none => rfl
  | some v =>
    rw [hk] at h
    exact h

lemma conformingMap_fillDefaults_udder (fields : List (String × Json))
    (h : conformingMap fields "udder_scores" = true) :
    conformingMap (fillDefaults fields) "udder_scores" = true := by
  unfold conformingMap at h ⊢
  rw [lookup_fillDefaults_udder]
  cases hk : fields.lookup "udder_scores" with
  | none => rfl
  | some v =>
    rw [hk] at h
    exact h

lemma entryScores_conforming (entries : List (String × Json))
    (h : (entries.all fun p => conformingEntry p.2) = true) :
    entryScores entries = (entryNumScores entries).map Json.num := by
  induction entries with
  | nil => rfl
  | cons p t ih =>
    rw [List.all_cons, Bool.and_eq_true] at h
    obtain ⟨hp, ht⟩ := h
    have ih' := ih ht
    obtain ⟨k, v⟩ := p
    cases v with
    | null => simpa [entryScores, entryNumScores] using ih'
    | bool b => simpa [entryScores, entryNumScores] using ih'
    | num q => simpa [entryScores, entryNumScores] using ih'
    | str s => simpa [entryScores, entryNumScores] using ih'
    | arr a => simpa [entryScores, entryNumScores] using ih'
    | obj d =>
      cases hl : d.lookup "score" with
      | none =>
        simp only [entryScores, entryNumScores, List.filterMap_cons, hl] at ih' ⊢
        exact ih'
      | some v' =>
        cases v' with
        | null =>
          simp only [entryScores, entryNumScores, List.filterMap_cons, hl] at ih' ⊢
          exact ih'
        | num q =>
          simp only [entryScores, entryNumScores, List.filterMap_cons, hl,
            List.map_cons] at ih' ⊢
          rw [ih']
        | bool b => exfalso; simp [conformingEntry, hl] at hp
        | str s => exfalso; simp [conformingEntry, hl] at hp
        | arr a => exfalso; simp [conformingEntry, hl] at hp
        | obj o => exfalso; simp [conformingEntry, hl] at hp

lemma sumValues_map_num (l : List ℚ) :
    sumValues (l.map Json.num) = .ok l.sum := by
  induction l with
  | nil => rfl
  | cons q t ih => simp [sumValues, numValue, ih]

lemma collect_conforming (fields : List (String × Json)) (key : String)
    (h : conformingMap fields key = true) :
    collectScoreValues ((fields.lookup key).getD (.obj [])) =
      .ok ((presentNumScores fields key).map Json.num) := by
  unfold conformingMap at h
  cases hk : fields.lookup key with
  | none =>
    unfold presentNumScores
    rw [hk]
    rfl
  | some v =>
    rw [hk] at h
    cases v with
    | obj entries =>
      simp only [hk, Option.getD, collectScoreValues, presentNumScores]
      rw [entryScores_conforming entries h]
    | null => exact absurd h (by simp)
    | bool b => exact absurd h (by simp)
    | num q => exact absurd h (by simp)
    | str s => exact absurd h (by simp)
    | arr a => exact absurd h (by simp)

lemma calc_json_normal (fields : List (String × Json))
    (hs : conformingMap fields "structural_scores" = true)
    (hu : conformingMap fields "udder_scores" = true) :
    calculate_composite_scores_json fields =
      Except.ok (Json.obj
        [("structural_composite", Json.num (round2
            (if presentNumScores fields "structural_scores" = [] then 5
             else mean (presentNumScores fields "structural_scores"))))
         , ("udder_composite",
            match (if presentNumScores fields "udder_scores" = []
                then (none : Option ℚ)
                else some (mean (presentNumScores fields "udder_scores"))) with
            | some u => if u ≠ 0 then Json.num (round2 u) else Json.null
            | none => Json.null)
         , ("final_composite", Json.num (round2
            (match (if presentNumScores fields "udder_scores" = []
                then (none : Option ℚ)
                else some (mean (presentNumScores fields "udder_scores"))) with
             | some u =>
               (if presentNumScores fields "structural_scores" = [] then 5
                else mean (presentNumScores fields "structural_scores")) * (3/5) +
                 u * (2/5)
             | none =>
               if presentNumScores fields "structural_scores" = [] then 5
               else mean (presentNumScores fields "structural_scores"))))]) := by
  have hcs := collect_conforming fields "structural_scores" hs
  have hcu := collect_conforming fields "udder_scores" hu
  unfold calculate_composite_scores_json
  rw [hcs, hcu]
  dsimp only
  rw [sumValues_map_num, sumValues_map_num]
  dsimp only
  simp only [List.isEmpty_iff, List.map_eq_nil_iff, List.length_map, mean]

/-- C3: for every payload whose category maps have the §6 shape (score maps
absent or JSON objects; per-entry scores numeric or null when present), the
composite calculator returns without raising, with structural composite the
arithmetic mean of the present (non-null) structural scores rounded to two
decimal places — malformed entries (non-dicts, or dicts without a `"score"`
key) are excluded from the mean — and exactly 5 when no structural score is
present. -/
theorem structural_composite_spec (fields : List (String × Json))
    (hs : conformingMap fields "structural_scores" = true)
    (hu : conformingMap fields "udder_scores" = true) :
    ∃ uc fc : Json,
      calculate_composite_scores_json fields =
        Except.ok (Json.obj
          [("structural_composite", Json.num
              (if presentNumScores fields "structural_scores" = [] then 5
               else round2 (mean (presentNumScores fields "structural_scores"))))
           , ("udder_composite", uc), ("final_composite", fc)]) := by
  by_cases hSe : presentNumScores fields "structural_scores" = []
  · have h := calc_json_normal fields hs hu
    rw [hSe] at h
    rw [hSe]
    simp only [reduceIte] at h ⊢
    rw [round2_five] at h
    exact ⟨_, _, h⟩
  · have h := calc_json_normal fields hs hu
    simp only [hSe, reduceIte] at h ⊢
    exact ⟨_, _, h⟩

/-- Witness for C3 at `malformedScoresPayload`: the malformed / null /
score-less entries are excluded, leaving present scores `[7, 6]`, and the
calculator succeeds. -/
theorem structural_composite_spec_witness :
    presentNumScores malformedScoresPayload "structural_scores" = [7, 6] ∧
    ∃ uc fc : Json,
      calculate_composite_scores_json malformedScoresPayload =
        Except.ok (Json.obj
          [("structural_composite", Json.num
              (if presentNumScores malformedScoresPayload "structural_scores" = [] then 5
               else round2 (mean (presentNumScores malformedScoresPayload "structural_scores"))))
           , ("udder_composite", uc), ("final_composite", fc)]) :=
  ⟨rfl, structural_composite_spec malformedScoresPayload rfl rfl⟩

/-- Counterexample to C9 as stated: the text `"5"` decodes as the JSON
number 5, yet `_parse_response` neither returns a parse-failure dict nor a
structured result — `_validate_result` raises an uncaught `TypeError`
(`"animal_detected" not in 5`), because the `except` arm only catches
`json.JSONDecodeError`. -/
theorem parse_nonobject_counterexample :
    parse_response "5" (Except.ok (Json.num 5)) = ParseOutcome.raised "TypeError" ∧
    (parse_response "5" (Except.ok (Json.num 5))).isStructured = false :=
  ⟨rfl, rfl⟩

/-- C9 (amended): the parsing boundary returns a distinct parse-failure
record carrying the offending raw text exactly when the text cannot be
decoded as JSON at all (never attempting partial recovery); for decodable
texts it never returns a parse-failure record, and whenever the decoded
value is a JSON object whose score maps have the expected §6 shape it
returns a structured result without signalling an error.  (Decodable
non-object values instead raise an uncaught exception — see the
counterexample.) -/
theorem parse_response_spec (raw : String) (decoded : Except String Json) :
    (∀ e, decoded = Except.error e →
      parse_response raw decoded =
        ParseOutcome.errorDict ("Failed to parse AI response: " ++ e) raw) ∧
    (∀ j, decoded = Except.ok j →
      ∀ m s, parse_response raw decoded ≠ ParseOutcome.errorDict m s) ∧
    (∀ fields, decoded = Except.ok (Json.obj fields) →
      conformingMap fields "structural_scores" = true →
      conformingMap fields "udder_scores" = true →
      ∃ r, parse_response raw decoded = ParseOutcome.structured r) := by
  refine ⟨?_, ?_, ?_⟩
  · intro e he
    subst he
    rfl
  · intro j hj m s
    subst hj
    unfold parse_response
    dsimp only
    cases hv : validate_result j <;> simp
  · intro fields hf hs hu
    subst hf
    have hs' := conformingMap_fillDefaults_structural fields hs
    have hu' := conformingMap_fillDefaults_udder fields hu
    unfold parse_response validate_result
    dsimp only
    rw [calc_json_normal (fillDefaults fields) hs' hu']
    exact ⟨_, rfl⟩

/-- Witness for C9 at concrete inputs: an undecodable text yields the
parse-failure record carrying that very text, and the decodable empty JSON
object yields a structured result. -/
theorem parse_response_spec_witness :
    parse_response "oops" (Except.error "Expecting value") =
      ParseOutcome.errorDict ("Failed to parse AI response: " ++ "Expecting value")
        "oops" ∧
    ∃ r, parse_response "{}" (Except.ok (Json.obj [])) = ParseOutcome.structured r :=
  ⟨(parse_response_spec "oops" (Except.error "Expecting value")).1 "Expecting value" rfl,
   (parse_response_spec "{}" (Except.ok (Json.obj []))).2.2 [] rfl rfl rfl⟩
